import Mathlib

/-!
Verification development for the Summon-Shipping-Tool repository
(netlify/functions/get-part-weight.js and its sibling snapshots).

The JavaScript sources are shallowly embedded: strings are modelled as
Lean `String`s over their character lists (ASCII-faithful; the sources
only manipulate ASCII text), JavaScript numbers are modelled as exact
rationals (`ℚ`; `parseFloat` of the digit strings accepted by the
sources is exact in decimal, and no claim depends on IEEE-754 rounding),
`null`/`undefined` are modelled by `Option`, and JavaScript string /
number truthiness is modelled explicitly.  The regular expressions used
by the sources are embedded through a small backtracking matcher whose
strategy mirrors the JavaScript engine: leftmost start position, greedy
quantifiers with backtracking, lazy quantifiers shortest-first,
alternation in written order, continuation-passing so that a failing
suffix backtracks into earlier quantifiers and alternatives.
-/

/-! ### Character classes (ASCII model of the JS classes used) -/

def isWsChar (c : Char) : Bool :=
  c = ' ' || c = '\t' || c = '\n' || c = '\r' || c = Char.ofNat 11 || c = Char.ofNat 12

def isDigitChar (c : Char) : Bool :=
  '0' ≤ c && c ≤ '9'

def isDigitDotChar (c : Char) : Bool :=
  isDigitChar c || c = '.'

def isNumPunctChar (c : Char) : Bool :=
  isDigitChar c || c = '.' || c = ','

def isAsciiLetter (c : Char) : Bool :=
  ('a' ≤ c && c ≤ 'z') || ('A' ≤ c && c ≤ 'Z')

def isWordChar (c : Char) : Bool :=
  isAsciiLetter c || isDigitChar c || c = '_'

def asciiLower (c : Char) : Char :=
  if 'A' ≤ c && c ≤ 'Z' then Char.ofNat (c.toNat + 32) else c

def asciiUpper (c : Char) : Char :=
  if 'a' ≤ c && c ≤ 'z' then Char.ofNat (c.toNat - 32) else c

def asciiLowerStr (s : String) : String :=
  String.mk (s.data.map asciiLower)

def asciiUpperStr (s : String) : String :=
  String.mk (s.data.map asciiUpper)

/-- JavaScript `String.prototype.trim` (ASCII whitespace model). -/
def jsTrim (s : String) : String :=
  String.mk (((s.data.dropWhile isWsChar).reverse.dropWhile isWsChar).reverse)

/-- JavaScript `s.replace(/,/g, "")`. -/
def stripCommas (s : String) : String :=
  String.mk (s.data.filter (fun c => c ≠ ','))

/-- JavaScript string truthiness of a possibly-null string: `null`,
`undefined` and `""` are falsy. -/
def truthyS : Option String → Bool
  | none => false
  | some s => s ≠ ""

/-- JavaScript number truthiness of a possibly-null number: `null` and
`0` are falsy (`NaN` never reaches these checks in the sources). -/
def truthyQ : Option ℚ → Bool
  | none => false
  | some q => q ≠ 0

/-- JavaScript `a || b` specialised to possibly-null strings: the left
operand wins iff it is truthy (non-null and non-empty). -/
def jsOrS (a b : Option String) : Option String :=
  if truthyS a then a else b

/-! ### A small backtracking regex engine

Constructors cover exactly the regex features the sources use: literals
(matched case-insensitively, since every regex in the sources carries
the `i` flag), greedy star/plus over a character class, a lazy plus over
a character class, an optional subexpression, ordered alternation,
concatenation and the word-boundary assertion `\b` in the only position
the sources use it (after a word character, where it reduces to
"next character, if any, is not a word character"). -/

inductive RE where
  | lit : String → RE
  | star : (Char → Bool) → RE
  | plus : (Char → Bool) → RE
  | lazyPlus : (Char → Bool) → RE
  | opt : RE → RE
  | alt : RE → RE → RE
  | cat : RE → RE → RE
  | nwb : RE

/-- Case-insensitive literal-prefix match; returns the remaining suffix. -/
def ciStrip : List Char → List Char → Option (List Char)
  | [], s => some s
  | _ :: _, [] => none
  | p :: ps, c :: cs => if asciiLower p = asciiLower c then ciStrip ps cs else none

/-- Length of the maximal prefix whose characters satisfy `p`. -/
def countWhile (p : Char → Bool) : List Char → Nat
  | [] => 0
  | c :: cs => if p c then countWhile p cs + 1 else 0

/-- Continuation-passing matcher.  `mtch r s k` tries to match `r`
against a prefix of `s` and calls `k` on the remaining suffix; the first
continuation success (in JS backtracking order) wins. -/
def mtch : RE → List Char → (List Char → Option α) → Option α
  | .lit l, s, k =>
      match ciStrip l.data s with
      | some s' => k s'
      | none => none
  | .star p, s, k =>
      let n := countWhile p s
      (List.range (n + 1)).findSome? (fun i => k (s.drop (n - i)))
  | .plus p, s, k =>
      let n := countWhile p s
      (List.range n).findSome? (fun i => k (s.drop (n - i)))
  | .lazyPlus p, s, k =>
      let n := countWhile p s
      (List.range n).findSome? (fun i => k (s.drop (i + 1)))
  | .opt r, s, k => (mtch r s k) <|> k s
  | .alt a b, s, k => (mtch a s k) <|> (mtch b s k)
  | .cat a b, s, k => mtch a s (fun s' => mtch b s' k)
  | .nwb, s, k =>
      match s with
      | [] => k []
      | c :: cs => if isWordChar c then none else k (c :: cs)

/-- Concatenation of a list of regex pieces. -/
def reSeq (rs : List RE) : RE :=
  rs.foldr RE.cat (RE.lit "")

/-- Unanchored test (`RegExp.prototype.test`): does the pattern match
starting at some position (leftmost-first, as in JS)? -/
def reTest (r : RE) (s : String) : Bool :=
  ((List.range (s.data.length + 1)).findSome?
    (fun i => mtch r (s.data.drop i) (fun _ => some ()))).isSome

/-- Unanchored search for `pre (inner) post` with one capturing group
`inner`; returns the captured text of the first match in JS order. -/
def searchCap1 (pre inner post : RE) (s : String) : Option String :=
  (List.range (s.data.length + 1)).findSome? (fun i =>
    let t := s.data.drop i
    mtch pre t (fun s1 =>
      mtch inner s1 (fun s2 =>
        mtch post s2 (fun _ =>
          some (String.mk (s1.take (s1.length - s2.length)))))))

/-! ### The number-and-unit regex of `parseWeightToLbs`

Both copies of `parseWeightToLbs` use
`/([\d.]+)\s*(mg|g|kg|lb|lbs|oz)\b/i`.  `numUnitSearch` returns the two
captured groups (the numeric text and the unit token) of the first match
in JS order. -/

def unitAltParse : RE :=
  .alt (.lit "mg") (.alt (.lit "g") (.alt (.lit "kg")
    (.alt (.lit "lb") (.alt (.lit "lbs") (.lit "oz")))))

def numUnitSearch (s : String) : Option (String × String) :=
  (List.range (s.data.length + 1)).findSome? (fun i =>
    let t := s.data.drop i
    mtch (RE.plus isDigitDotChar) t (fun s2 =>
      mtch (RE.star isWsChar) s2 (fun s3 =>
        mtch unitAltParse s3 (fun s4 =>
          mtch RE.nwb s4 (fun _ =>
            some (String.mk (t.take (t.length - s2.length)),
                  String.mk (s3.take (s3.length - s4.length))))))))

/-! ### `parseFloat` and `toFixed(10)`

`parseFloat` is split into a decidable digit-extraction phase
(`parseFloatParts`, pure `Nat` data) and an exact-rational assembly
(`ratOfParts`), because the kernel cannot evaluate `ℚ` normalisation. -/

def digitsToNat (l : List Char) : Nat :=
  l.foldl (fun acc c => acc * 10 + (c.toNat - '0'.toNat)) 0

/-- JavaScript `parseFloat` restricted to the strings the sources feed
it (matches of `[\d.]+`: digits and dots, no sign, no exponent): the
longest valid decimal prefix is parsed into (integer part, fractional
digits value, fractional digit count); no digit at all gives `NaN`,
modelled as `none`. -/
def parseFloatParts (s : String) : Option (ℕ × ℕ × ℕ) :=
  let intPart := s.data.takeWhile isDigitChar
  let rest := s.data.drop intPart.length
  let fracPart :=
    match rest with
    | '.' :: r => r.takeWhile isDigitChar
    | _ => []
  if intPart.isEmpty && fracPart.isEmpty then none
  else some (digitsToNat intPart, digitsToNat fracPart, fracPart.length)

/-- Exact rational value of the parts produced by `parseFloatParts`.
The value is exact in `ℚ`, so the sources' `isFinite` guard corresponds
to `parseFloatParts` being `some`. -/
def ratOfParts (p : ℕ × ℕ × ℕ) : ℚ :=
  (p.1 : ℚ) + (p.2.1 : ℚ) / ((10 : ℚ) ^ p.2.2)

/-- JavaScript `Number(x.toFixed(10))`: decimal rounding to 10 places,
ties to the larger value, exactly as ECMA-262 specifies `toFixed`. -/
def round10 (q : ℚ) : ℚ :=
  (⌊q * 10 ^ 10 + 1 / 2⌋ : ℚ) / 10 ^ 10

/-! ### The two copies of `parseWeightToLbs`

The repository's `get-part-weight.js` contains two snapshots of the
function.  Both share the regex and the unit conversion chain; the first
strips commas before matching and returns the raw conversion, the second
does not strip commas and rounds the result with
`Number(lbs.toFixed(10))`.  These definitions model the `weightLbs`
component of the returned object. -/

/-- The `if/else` conversion chain shared by both copies, applied to the
lowercased unit token (453.59237 is written as the exact rational
45359237/100000). -/
def unitToLbs (unit : String) (value : ℚ) : Option ℚ :=
  if unit = "mg" then some (value / 1000 / (45359237 / 100000))
  else if unit = "g" then some (value / (45359237 / 100000))
  else if unit = "kg" then some (value * 1000 / (45359237 / 100000))
  else if unit = "oz" then some (value / 16)
  else if unit = "lb" || unit = "lbs" then some value
  else none

/-- Decidable phase shared by both copies: first regex match on the
prepared string, then `parseFloat` digit extraction, then lowercasing of
the unit token.  Returns the parsed number parts and the unit. -/
def parseCoreParsed (s : String) : Option (ℕ × ℕ × ℕ × String) :=
  match numUnitSearch s with
  | none => none
  | some (numS, unitS) =>
    match parseFloatParts numS with
    | none => none
    | some (i, f, l) => some (i, f, l, asciiLowerStr unitS)

/-- Numeric phase shared by both copies: assemble the parsed magnitude
and run the unit conversion chain. -/
def lbsOfParsed (p : ℕ × ℕ × ℕ × String) : Option ℚ :=
  unitToLbs p.2.2.2 (ratOfParts (p.1, p.2.1, p.2.2.1))

/-- First copy (`get-part-weight.js`, first snapshot): commas are
stripped and the string trimmed before the regex runs; no output
rounding. -/
def parseWeightToLbs1 (raw : Option String) : Option ℚ :=
  match raw with
  | none => none
  | some r =>
    if r = "" then none
    else (parseCoreParsed (jsTrim (stripCommas r))).bind lbsOfParsed

/-- Second copy (`get-part-weight.js`, second snapshot): the string is
only trimmed (no comma stripping), and a non-null result is rounded with
`Number(lbs.toFixed(10))`. -/
def parseWeightToLbs2 (raw : Option String) : Option ℚ :=
  match raw with
  | none => none
  | some r =>
    if r = "" then none
    else ((parseCoreParsed (jsTrim r)).bind lbsOfParsed).map round10

/-! ### Vendor record data model

The handlers read the listed fields off a vendor search record.  Fields
that are absent or hold a non-string value behave, in every access the
sources perform, exactly like absent fields, so they are modelled as
`Option String`.  `ProductAttributes` arrives in one of the JSON shapes
the sources distinguish: a flat array, an object wrapping an array under
`ProductAttribute`, or anything else (including an object whose
`ProductAttribute` is not an array). -/

structure ProductAttribute where
  AttributeName : Option String
  AttributeValue : Option String
deriving DecidableEq

inductive AttributesField where
  | arr : List ProductAttribute → AttributesField
  | objWithArr : List ProductAttribute → AttributesField
  | objOther : AttributesField
deriving DecidableEq

structure Product where
  UnitWeight : Option String
  Weight : Option String
  NetWeight : Option String
  PackageWeight : Option String
  ProductAttributes : Option AttributesField
  ProductDetailUrl : Option String
  DataSheetUrl : Option String
  Description : Option String
  Manufacturer : Option String
  ManufacturerPartNumber : Option String
  MouserPartNumber : Option String
deriving DecidableEq

/-- A record with every field absent, for building concrete inputs. -/
def emptyProduct : Product :=
  ⟨none, none, none, none, none, none, none, none, none, none, none⟩

/-- `normalizeAttributes` from the first snapshot: a flat array is kept,
an array nested under the `ProductAttribute` wrapper key is unwrapped,
anything else becomes the empty list. -/
def normalizeAttributes : Option AttributesField → List ProductAttribute
  | some (.arr l) => l
  | some (.objWithArr l) => l
  | _ => []

/-! ### Attribute-name pattern tests (`extractRawWeight` priority list) -/

def testUnitWeight (s : String) : Bool :=
  reTest (reSeq [RE.lit "unit", RE.star isWsChar, RE.lit "weight"]) s

def testNetWeight (s : String) : Bool :=
  reTest (reSeq [RE.lit "net", RE.star isWsChar, RE.lit "weight"]) s

def testPackageWeight (s : String) : Bool :=
  reTest (reSeq [RE.lit "package", RE.star isWsChar, RE.lit "weight"]) s

/-- Case-insensitive occurrence of `w` at position `i` of `s`. -/
def ciAt (w : List Char) (s : List Char) (i : ℕ) : Bool :=
  (ciStrip w (s.drop i)).isSome

/-- JavaScript `/\bword\b/i.test(s)`: a case-insensitive occurrence of
`w` delimited by word boundaries on both sides. -/
def wordBoundedContains (w : String) (s : String) : Bool :=
  (List.range (s.data.length + 1)).any (fun i =>
    ciAt w.data s.data i &&
    (decide (i = 0) || !(isWordChar (s.data.getD (i - 1) ' '))) &&
    (decide (s.data.length ≤ i + w.data.length) ||
      !(isWordChar (s.data.getD (i + w.data.length) ' '))))

/-- The ordered pattern list of `extractRawWeight`:
`[/unit\s*weight/i, /net\s*weight/i, /package\s*weight/i, /\bweight\b/i,
/\bmass\b/i]`. -/
def attrPriority : List (String → Bool) :=
  [testUnitWeight, testNetWeight, testPackageWeight,
   wordBoundedContains "weight", wordBoundedContains "mass"]

/-! ### `extractRawWeight` (first snapshot) -/

/-- The direct-field loop of `extractRawWeight`: the first candidate
holding a string that is non-empty after trimming wins; the trimmed
value and the field name are returned. -/
def firstDirect : List (String × Option String) → Option (String × String)
  | [] => none
  | (src, val) :: rest =>
    match val with
    | some s => if jsTrim s ≠ "" then some (jsTrim s, src) else firstDirect rest
    | none => firstDirect rest

/-- The predicate of the `attrs.find(...)` call inside the pattern loop:
the name matches the pattern and the value is non-blank. -/
def attrHit (test : String → Bool) (attrs : List ProductAttribute) : Option ProductAttribute :=
  attrs.find? (fun a => test (a.AttributeName.getD "") && jsTrim (a.AttributeValue.getD "") ≠ "")

/-- The pattern loop of `extractRawWeight`: patterns are tried in
priority order; for the first pattern with a hit, the hit's trimmed
value and `ProductAttributes:<name>` are returned. -/
def firstPattern : List (String → Bool) → List ProductAttribute → Option (String × String)
  | [], _ => none
  | t :: ts, attrs =>
    match attrHit t attrs with
    | some hit =>
        some (jsTrim (hit.AttributeValue.getD ""),
              "ProductAttributes:" ++ hit.AttributeName.getD "")
    | none => firstPattern ts attrs

/-- The direct-candidate list, in source order. -/
def directCandidates (p : Product) : List (String × Option String) :=
  [("UnitWeight", p.UnitWeight), ("Weight", p.Weight),
   ("NetWeight", p.NetWeight), ("PackageWeight", p.PackageWeight)]

/-- `extractRawWeight` from the first snapshot, returning
`(rawWeight, parsedFrom)`; `none` models the `{rawWeight: null}`
result. -/
def extractRawWeight (p : Product) : Option (String × String) :=
  match firstDirect (directCandidates p) with
  | some r => some r
  | none => firstPattern attrPriority (normalizeAttributes p.ProductAttributes)

/-! ### Handler prefix (shared by all three snapshots)

All three handlers first validate the `part` query parameter and only
then the `MOUSER_API_KEY` environment variable; either failure returns
before any network call or resolution is attempted. -/

inductive PreOutcome where
  | missingPart
  | configError
  | proceed : String → PreOutcome
deriving DecidableEq

/-- The validation prefix of the handlers:
`part = (event.queryStringParameters?.part || "").trim(); if (!part) ...;
const apiKey = process.env.MOUSER_API_KEY; if (!apiKey) ...`.
A `proceed` outcome is the only one that goes on to resolution and
network calls. -/
def handlerPre (partParam : Option String) (apiKey : Option String) : PreOutcome :=
  let part := jsTrim (jsOrS partParam (some "") |>.getD "")
  if part = "" then .missingPart
  else if !truthyS apiKey then .configError
  else .proceed part

/-! ### Record selection

The two `get-part-weight.js` handlers select `products[0]`.  The
`part_000` snapshot prefers an exact case-insensitive manufacturer part
number match (`parts.find(p => (p?.ManufacturerPartNumber || "")
.toUpperCase() === part) || parts[0]`, with `part = partRaw.toUpperCase()`). -/

def mpnMatches (partRaw : String) (p : Product) : Bool :=
  asciiUpperStr (p.ManufacturerPartNumber.getD "") = asciiUpperStr partRaw

/-- Record selection in the `part_000` snapshot. -/
def select000 (partRaw : String) (parts : List Product) : Option Product :=
  match parts.find? (mpnMatches partRaw) with
  | some r => some r
  | none => parts.head?

/-- Record selection in both `get-part-weight.js` handlers
(`const first = Array.isArray(products) ? products[0] : null`). -/
def selectMain (products : List Product) : Option Product :=
  products.head?

/-! ### The second snapshot's API-field probe and response -/

/-- The attribute probe of the second handler:
`first?.ProductAttributes?.find?.((a) =>
/unit\s*weight|weight/i.test(a?.AttributeName || ""))?.AttributeValue`.
Only a flat-array shape has a callable `find`; the wrapped shape falls
through to `undefined`. -/
def testUnitOrWeight (s : String) : Bool :=
  reTest (RE.alt (reSeq [RE.lit "unit", RE.star isWsChar, RE.lit "weight"]) (RE.lit "weight")) s

def attrValueFromApi : Option AttributesField → Option String
  | some (.arr l) =>
      (l.find? (fun a => testUnitOrWeight (a.AttributeName.getD ""))).bind
        (fun a => a.AttributeValue)
  | _ => none

/-- `rawWeightFromApi` of the second handler:
`first.Weight || first.UnitWeight || <attribute probe> || null`
(JavaScript `||`, so empty strings are skipped). -/
def rawWeightFromApi (p : Product) : Option String :=
  jsOrS p.Weight (jsOrS p.UnitWeight (jsOrS (attrValueFromApi p.ProductAttributes) none))

structure Response2 where
  weight : Option ℚ
  source : String
  rawWeight : Option String
  scrapedFromHtml : Option String
  error : Option String
deriving DecidableEq

/-- The record-found path of the second `get-part-weight.js` handler.
`htmlResult` is the `rawWeight` component the HTML scraper would hand
back for the record's product URL (the fetch itself is the external
collaborator); it is consulted only under the source's
`if (!rawWeight && productUrl)` guard, and adopted only when truthy. -/
def handlerCore2 (first : Product) (htmlResult : Option String) : Response2 :=
  let productUrl := jsOrS first.ProductDetailUrl none
  let rawApi := rawWeightFromApi first
  let useScrape := !truthyS rawApi && truthyS productUrl && truthyS htmlResult
  let rawWeight := if useScrape then htmlResult else rawApi
  let scrapedFromHtml := if useScrape then htmlResult else none
  let weightLbs := parseWeightToLbs2 rawWeight
  { weight := weightLbs
    source :=
      if truthyQ weightLbs then
        (if truthyS rawApi then "Mouser API" else "Mouser HTML")
      else "Mouser (No Weight)"
    rawWeight := jsOrS rawWeight none
    scrapedFromHtml := jsOrS scrapedFromHtml none
    error :=
      if truthyQ weightLbs then none
      else some (if truthyS productUrl then "Weight not found (API + HTML scrape)"
                 else "Weight not found (API only)") }

/-! ### The first snapshot's response -/

structure Response1 where
  weight : Option ℚ
  rawWeight : Option String
  parsedFrom : Option String
  error : Option String
deriving DecidableEq

/-- The record-found path of the first `get-part-weight.js` handler:
extraction, parsing, and an `error` that is null exactly when
`weightLbs == null` is false (`==` catches only null/undefined, so a
parsed `0` carries a null error here). -/
def handlerCore1 (first : Product) : Response1 :=
  let ex := extractRawWeight first
  let weightLbs := parseWeightToLbs1 (ex.map Prod.fst)
  { weight := weightLbs
    rawWeight := ex.map Prod.fst
    parsedFrom := ex.map Prod.snd
    error :=
      if weightLbs = none then some "Weight not provided by Mouser for this listing"
      else none }

/-! ### The HTML scraper (`scrapeUnitWeightFromMouserPage`)

The fetch is the external collaborator; `scrapeCore` models everything
after `const html = await resp.text()`: the whitespace compaction and
the ordered pattern chain. -/

/-- Worker for `compactWs`: the flag records whether the previous kept
character came from a whitespace run, so each maximal whitespace run
contributes exactly one space. -/
def compactGo : Bool → List Char → List Char
  | _, [] => []
  | prevWs, c :: cs =>
    if isWsChar c then
      if prevWs then compactGo true cs else ' ' :: compactGo true cs
    else c :: compactGo false cs

/-- `html.replace(/\s+/g, " ")`: every maximal whitespace run becomes a
single space. -/
def compactWs (s : String) : String :=
  String.mk (compactGo false s.data)

/-- `cleanWeight`: strip commas, trim. -/
def cleanWeight (s : String) : String :=
  jsTrim (stripCommas s)

/-- The non-capturing unit alternation of the scraper patterns,
`(?:mg|g|kg|oz|lb|lbs)` (note `oz` before `lb`, unlike the parse
regex). -/
def unitAltScrape : RE :=
  .alt (.lit "mg") (.alt (.lit "g") (.alt (.lit "kg")
    (.alt (.lit "oz") (.alt (.lit "lb") (.lit "lbs")))))

/-- The capturing group `([0-9.,]+\s*(?:mg|g|kg|oz|lb|lbs))` of patterns
A and B. -/
def innerNumUnit : RE :=
  reSeq [RE.plus isNumPunctChar, RE.star isWsChar, unitAltScrape]

def notGtChar (c : Char) : Bool := c ≠ '>'

/-- Pattern A, first variant:
`/Unit\s*Weight\s*:?<\/[^>]*>\s*<\/td>\s*<td[^>]*>\s*(...)/i`. -/
def preTabA1 : RE :=
  reSeq [RE.lit "Unit", RE.star isWsChar, RE.lit "Weight", RE.star isWsChar,
    RE.opt (RE.lit ":"), RE.lit "</", RE.star notGtChar, RE.lit ">", RE.star isWsChar,
    RE.lit "</td>", RE.star isWsChar, RE.lit "<td", RE.star notGtChar, RE.lit ">",
    RE.star isWsChar]

/-- Pattern A, second variant:
`/Unit\s*Weight\s*:?<\/td>\s*<td[^>]*>\s*(...)/i`. -/
def preTabA2 : RE :=
  reSeq [RE.lit "Unit", RE.star isWsChar, RE.lit "Weight", RE.star isWsChar,
    RE.opt (RE.lit ":"), RE.lit "</td>", RE.star isWsChar, RE.lit "<td",
    RE.star notGtChar, RE.lit ">", RE.star isWsChar]

/-- Pattern B: `/Unit\s*Weight\s*:\s*(...)/i`. -/
def preTxtB : RE :=
  reSeq [RE.lit "Unit", RE.star isWsChar, RE.lit "Weight", RE.star isWsChar,
    RE.lit ":", RE.star isWsChar]

/-- Pattern C, first variant: `/"Unit\s*Weight"\s*:\s*"([^"]+?)"/i`. -/
def preJsonC1 : RE :=
  reSeq [RE.lit "\"Unit", RE.star isWsChar, RE.lit "Weight\"", RE.star isWsChar,
    RE.lit ":", RE.star isWsChar, RE.lit "\""]

/-- Pattern C, second variant: `/"unitWeight"\s*:\s*"([^"]+?)"/i`. -/
def preJsonC2 : RE :=
  reSeq [RE.lit "\"unitWeight\"", RE.star isWsChar, RE.lit ":", RE.star isWsChar,
    RE.lit "\""]

/-- Pattern C, third variant:
`/unitWeight\\?":\\?"([^\\"]+?)\\?"/i` (escaped-JSON form). -/
def preJsonC3 : RE :=
  reSeq [RE.lit "unitWeight", RE.opt (RE.lit "\\"), RE.lit "\"", RE.lit ":",
    RE.opt (RE.lit "\\"), RE.lit "\""]

def notQuoteChar (c : Char) : Bool := c ≠ '"'

def notQuoteBackslashChar (c : Char) : Bool := c ≠ '"' && c ≠ '\\'

def epsRE : RE := RE.lit ""

/-- The A-pattern pair as the source combines them with `||`. -/
def tabularCap (compact : String) : Option String :=
  (searchCap1 preTabA1 innerNumUnit epsRE compact) <|>
  (searchCap1 preTabA2 innerNumUnit epsRE compact)

def plainCap (compact : String) : Option String :=
  searchCap1 preTxtB innerNumUnit epsRE compact

/-- The C-pattern triple as the source combines them with `||`. -/
def jsonCap (compact : String) : Option String :=
  (searchCap1 preJsonC1 (RE.lazyPlus notQuoteChar) (RE.lit "\"") compact) <|>
  (searchCap1 preJsonC2 (RE.lazyPlus notQuoteChar) (RE.lit "\"") compact) <|>
  (searchCap1 preJsonC3 (RE.lazyPlus notQuoteBackslashChar)
    (RE.cat (RE.opt (RE.lit "\\")) (RE.lit "\"")) compact)

/-- The guard `/(?:mg|g|kg|oz|lb|lbs)/i.test(m[1])` applied to the
C-pattern capture. -/
def unitGate (s : String) : Bool :=
  reTest unitAltScrape s

/-- JavaScript truthiness of a captured group (`m?.[1]`). -/
def capHit (m : Option String) : Option String :=
  match m with
  | some c => if c = "" then none else some c
  | none => none

/-- The pattern chain of `scrapeUnitWeightFromMouserPage` after the
fetch: empty body short-circuits to null; then A (two variants), then B,
then C (three variants, gated on a unit token in the capture); the first
truthy capture is cleaned and returned. -/
def scrapeCore (html : String) : Option String :=
  if html = "" then none
  else
    let compact := compactWs html
    match capHit (tabularCap compact) with
    | some c => some (cleanWeight c)
    | none =>
      match capHit (plainCap compact) with
      | some c => some (cleanWeight c)
      | none =>
        match capHit (jsonCap compact) with
        | some c => if unitGate c then some (cleanWeight c) else none
        | none => none

/-! ### Claim-side reformulation of the extractor (claim C2)

`specExtractC2` restates the claim's description of the extractor:
direct fields first (in the stated order, first non-blank trimmed string
wins), then the normalized attribute list matched against the pattern
order, first match by pattern priority.  "Non-empty" is read as
non-empty after trimming, matching the trimmed values the extractor
returns. -/

def specExtractC2 (p : Product) : Option (String × String) :=
  ((directCandidates p).findSome? (fun fv =>
    fv.2.bind (fun s => if jsTrim s ≠ "" then some (jsTrim s, fv.1) else none)))
  <|>
  (attrPriority.findSome? (fun t =>
    (attrHit t (normalizeAttributes p.ProductAttributes)).map (fun hit =>
      (jsTrim (hit.AttributeValue.getD ""),
       "ProductAttributes:" ++ hit.AttributeName.getD ""))))

/-! ### Spec-modelled package inference and pipeline tail

The repository's `src` tree contains no package-inference stage and no
quantity scaling: the handlers end at the parse step.  The spec
describes both, so the following definitions are modelled from the
spec's words and carry the pipeline-tail claims. -/

/-- Modelled from the spec: the ordered list of recognized package-size
codes of 4.2 ("01005, 0201, 0402, 0603, 0805, 1008, 1206, 1210, 1806,
1812, 2010, 2512").  Absent from src. -/
def packageCodes : List String :=
  ["01005", "0201", "0402", "0603", "0805", "1008", "1206", "1210",
   "1806", "1812", "2010", "2512"]

def isAlnumChar (c : Char) : Bool :=
  isAsciiLetter c || isDigitChar c

/-- Modelled from the spec: a code "matched as a bounded token" — an
occurrence not directly adjacent to an alphanumeric character. -/
def boundedTokenContains (w s : String) : Bool :=
  (List.range (s.data.length + 1)).any (fun i =>
    ciAt w.data s.data i &&
    (decide (i = 0) || !(isAlnumChar (s.data.getD (i - 1) ' '))) &&
    (decide (s.data.length ≤ i + w.data.length) ||
      !(isAlnumChar (s.data.getD (i + w.data.length) ' '))))

/-- Plain substring occurrence (the unbounded fallback match of 4.2). -/
def substringContains (w s : String) : Bool :=
  (List.range (s.data.length + 1)).any (fun i => ciAt w.data s.data i)

/-- Modelled from the spec: 4.2 package inference — first code matched
as a bounded token wins; if none, first code matched as an unbounded
substring; each code maps to its typical gram mass through the lookup
table.  The spec leaves the gram values themselves as tunable
calibration constants, so the table is a parameter.  Absent from src. -/
def specPackageInference (table : String → ℚ) (text : String) : Option (String × ℚ) :=
  match packageCodes.find? (fun c => boundedTokenContains c text) with
  | some c => some (c, table c)
  | none =>
    (packageCodes.find? (fun c => substringContains c text)).map (fun c => (c, table c))

/-- An example calibration table (typical gram masses per package code)
standing in for the spec's unspecified tunable constants. -/
def exampleGramTable (c : String) : ℚ :=
  ((([("01005", (1 : ℚ) / 25000), ("0201", 1 / 5000), ("0402", 3 / 5000),
      ("0603", 1 / 500), ("0805", 11 / 2000), ("1008", 1 / 125),
      ("1206", 2 / 125), ("1210", 1 / 40), ("1806", 1 / 25),
      ("1812", 3 / 50), ("2010", 3 / 50), ("2512", 1 / 10)] :
      List (String × ℚ)).find? (fun e => e.1 = c)).map Prod.snd).getD 0

/-- Modelled from the spec: the text package inference searches,
"concatenated text (identifier + vendor part numbers + description)".
Absent from src. -/
def specConcatText (ident : String) (p : Product) : String :=
  ident ++ " " ++ p.ManufacturerPartNumber.getD "" ++ " " ++
  p.MouserPartNumber.getD "" ++ " " ++ p.Description.getD ""

inductive Stage where
  | structuredField
  | htmlScrape
  | packageInference
deriving DecidableEq

/-- Modelled from the spec: the pipeline tail of 4.5 — structured
extraction (from src, 4.3) first; if it yields nothing and the record
has a product URL, the scraped text (an input here, since the fetch is
external) is normalized; if that fails, package inference is the final
fallback.  The extractor and normalizer are the src definitions; the
inference stage is absent from src and spec-modelled. -/
def specResolveUnitWeight (table : String → ℚ) (ident : String) (p : Product)
    (scrapeRes : Option String) : Option (ℚ × Stage) :=
  match extractRawWeight p with
  | some (raw, _) => (parseWeightToLbs2 (some raw)).map (fun w => (w, Stage.structuredField))
  | none =>
    match (if truthyS p.ProductDetailUrl then
             scrapeRes.bind (fun r => parseWeightToLbs2 (some r))
           else none) with
    | some w => some (w, Stage.htmlScrape)
    | none =>
      (specPackageInference table (specConcatText ident p)).map
        (fun cg => (cg.2 / (45359237 / 100000), Stage.packageInference))

/-- Modelled from the spec: quantity scaling (4.5 rule 6) — the src
handlers return only the unit weight and read no quantity parameter, so
the scaling step is modelled from the spec: resolved unit weight times
the requested quantity (default 1 when absent); unresolved propagates.
Absent from src. -/
def specTotalWeight (unitWeight : Option ℚ) (qtyParam : Option ℕ) : Option ℚ :=
  unitWeight.map (fun w => w * (qtyParam.getD 1 : ℕ))

/-- The tabular Net-Weight pattern claim C7(b) asserts: pattern A's
second variant with the label "Net Weight" substituted, following the
claim's words ("the same tabular structure with Net Weight as a
secondary label").  No such pattern exists in
`scrapeUnitWeightFromMouserPage`. -/
def claimNetTabularCap (compact : String) : Option String :=
  searchCap1
    (reSeq [RE.lit "Net", RE.star isWsChar, RE.lit "Weight", RE.star isWsChar,
      RE.opt (RE.lit ":"), RE.lit "</td>", RE.star isWsChar, RE.lit "<td",
      RE.star notGtChar, RE.lit ">", RE.star isWsChar])
    innerNumUnit epsRE compact

/-- The conversion table exactly as claim C1 states it, keyed by the
lowercased recognized unit token: mg, g, kg, oz, lb/lbs;
453.59237 = 45359237/100000 exactly. -/
def specPoundValue (v : ℚ) (u : String) : Option ℚ :=
  if u = "mg" then some (v / 1000 / (45359237 / 100000))
  else if u = "g" then some (v / (45359237 / 100000))
  else if u = "kg" then some (v * 1000 / (45359237 / 100000))
  else if u = "oz" then some (v / 16)
  else if u = "lb" || u = "lbs" then some v
  else none

/-- A record with no structured weight, a product URL, and record text
containing the package code 0603. -/
def exProductC3 : Product :=
  { emptyProduct with
    ProductDetailUrl := some "https://www.mouser.com/x"
    Description := some "RES 0603 1K" }

/-- A record whose structured Weight field is set, with a product URL. -/
def exProductC3W : Product :=
  { emptyProduct with
    Weight := some "2 kg"
    ProductDetailUrl := some "https://example.com/p" }

/-- A record with no structured weight, no product URL, and record text
containing the package code 0603. -/
def exProductC5 : Product := { emptyProduct with Description := some "RES 0603 1K" }

def exRecA : Product := { emptyProduct with ManufacturerPartNumber := some "AAA-1" }

def exRecB : Product := { emptyProduct with ManufacturerPartNumber := some "BBB-2" }

def netWeightHtml : String := "<td>Net Weight:</td><td>5 g</td>"

/-- A record whose Weight field parses to exactly zero pounds. -/
def exProductC9 : Product := { emptyProduct with Weight := some "0 g" }

example : numUnitSearch "5.500 mg" = some ("5.500", "mg") := by decide

example : parseFloatParts "5.500" = some (5, 500, 3) := by decide

example : parseCoreParsed "5.500 mg" = some (5, 500, 3, "mg") := by decide

example : parseCoreParsed (jsTrim (stripCommas "1,000 g")) = some (1000, 0, 0, "g") := by decide

example : parseCoreParsed (jsTrim "1,000 g") = some (0, 0, 0, "g") := by decide

example : parseWeightToLbs1 (some "no units here") = none := by decide

example : numUnitSearch "2 kg" = some ("2", "kg") := by decide

example : numUnitSearch "1.5 lbs" = some ("1.5", "lbs") := by decide

example : numUnitSearch "5 gram" = none := by decide

example : parseFloatParts "..." = none := by decide

example : parseWeightToLbs1 (some "5.500 mg") = some (550 / 45359237) := by
  have h : parseCoreParsed (jsTrim (stripCommas "5.500 mg")) = some (5, 500, 3, "mg") := by
    decide
  have hne : ("5.500 mg" : String) ≠ "" := by decide
  simp only [parseWeightToLbs1]
  rw [if_neg hne, h]
  show lbsOfParsed (5, 500, 3, "mg") = some (550 / 45359237)
  norm_num [lbsOfParsed, unitToLbs, ratOfParts]

example :
    extractRawWeight
      { emptyProduct with Weight := some " 2 kg " } = some ("2 kg", "Weight") := by decide

example :
    extractRawWeight
      { emptyProduct with
        ProductAttributes := some (.objWithArr
          [⟨some "Net Weight", some "4 g"⟩, ⟨some "Unit Weight", some "5.500 mg"⟩]) } =
      some ("5.500 mg", "ProductAttributes:Unit Weight") := by decide

example : extractRawWeight emptyProduct = none := by decide

example :
    scrapeCore "<td>Unit Weight:</td><td>5.500 mg</td>" = some "5.500 mg" := by decide

example :
    scrapeCore "blah   Unit Weight:  1,234 kg blah" = some "1234 kg" := by decide

example : scrapeCore "<html>no weight here</html>" = none := by decide

example : scrapeCore "\"unitWeight\": \"5.500 mg\"" = some "5.500 mg" := by decide

example : scrapeCore "\"unitWeight\": \"none\"" = none := by decide

example : scrapeCore "<td>Net Weight:</td><td>5 g</td>" = none := by decide

theorem firstDirect_eq_findSome (l : List (String × Option String)) :
    firstDirect l = l.findSome? (fun fv =>
      fv.2.bind (fun s => if jsTrim s ≠ "" then some (jsTrim s, fv.1) else none)) := by
  induction l with
  | nil => rfl
  | cons fv rest ih =>
    obtain ⟨src, val⟩ := fv
    cases val with
    | none => rw [List.findSome?_cons]; simpa [firstDirect] using ih
    | some s =>
      rw [List.findSome?_cons]
      by_cases h : jsTrim s = ""
      · simpa [firstDirect, h] using ih
      · simp [firstDirect, h]

theorem firstPattern_eq_findSome (ts : List (String → Bool)) (attrs : List ProductAttribute) :
    firstPattern ts attrs = ts.findSome? (fun t =>
      (attrHit t attrs).map (fun hit =>
        (jsTrim (hit.AttributeValue.getD ""),
         "ProductAttributes:" ++ hit.AttributeName.getD ""))) := by
  induction ts with
  | nil => rfl
  | cons t rest ih =>
    rw [List.findSome?_cons]
    cases h : attrHit t attrs with
    | none => simpa [firstPattern, h] using ih
    | some hit => simp [firstPattern, h]

theorem matchOrElse (a b : Option α) :
    (a <|> b) = match a with | some r => some r | none => b := by
  cases a <;> rfl

/-! ### Helper lemmas about the second handler -/

theorem truthyS_none : truthyS none = false := rfl

theorem truthyQ_none : truthyQ none = false := rfl

theorem jsOrS_none_left (b : Option String) : jsOrS none b = b := rfl

theorem truthyS_jsOrS_none (a : Option String) : truthyS (jsOrS a none) = truthyS a := by
  cases a with
  | none => rfl
  | some s =>
    by_cases h : s = "" <;> simp [jsOrS, truthyS, h]

theorem jsOrS_none_of_truthy (a : Option String) (h : truthyS a = true) : jsOrS a none = a := by
  simp [jsOrS, h]

theorem jsOrS_none_of_falsy (a : Option String) (h : truthyS a = false) : jsOrS a none = none := by
  simp [jsOrS, h]

theorem parseWeightToLbs2_of_falsy (r : Option String) (h : truthyS r = false) :
    parseWeightToLbs2 r = none := by
  cases r with
  | none => rfl
  | some s =>
    have hs : s = "" := by simpa [truthyS] using h
    simp [parseWeightToLbs2, hs]

/-- When the API probe found a truthy raw weight, the scrape input is
never consulted: the whole response is determined by the probe. -/
theorem handlerCore2_apiRaw (p : Product) (htmlResult : Option String)
    (h : truthyS (rawWeightFromApi p) = true) :
    handlerCore2 p htmlResult =
      { weight := parseWeightToLbs2 (rawWeightFromApi p)
        source :=
          if truthyQ (parseWeightToLbs2 (rawWeightFromApi p)) then "Mouser API"
          else "Mouser (No Weight)"
        rawWeight := rawWeightFromApi p
        scrapedFromHtml := none
        error :=
          if truthyQ (parseWeightToLbs2 (rawWeightFromApi p)) then none
          else some (if truthyS p.ProductDetailUrl then "Weight not found (API + HTML scrape)"
                     else "Weight not found (API only)") } := by
  unfold handlerCore2
  simp [h, jsOrS_none_of_truthy _ h, truthyS_jsOrS_none, truthyS_none, jsOrS_none_left]

/-- When the probe found nothing truthy and the scrape input is not
truthy either, the response resolves no weight. -/
theorem handlerCore2_unresolved (p : Product) (htmlResult : Option String)
    (h : truthyS (rawWeightFromApi p) = false) (hh : truthyS htmlResult = false) :
    handlerCore2 p htmlResult =
      { weight := none
        source := "Mouser (No Weight)"
        rawWeight := none
        scrapedFromHtml := none
        error :=
          some (if truthyS p.ProductDetailUrl then "Weight not found (API + HTML scrape)"
                else "Weight not found (API only)") } := by
  unfold handlerCore2
  simp [h, hh, jsOrS_none_of_falsy _ h, parseWeightToLbs2_of_falsy _ h, truthyQ_none,
    truthyS_jsOrS_none, truthyS_none, jsOrS_none_left]

/-- When the probe found nothing, the URL is truthy and the scrape input
is a truthy string, the scraped text is adopted as the raw weight. -/
theorem handlerCore2_scraped (p : Product) (s : String)
    (h : truthyS (rawWeightFromApi p) = false) (hu : truthyS p.ProductDetailUrl = true)
    (hs : s ≠ "") :
    handlerCore2 p (some s) =
      { weight := parseWeightToLbs2 (some s)
        source :=
          if truthyQ (parseWeightToLbs2 (some s)) then "Mouser HTML"
          else "Mouser (No Weight)"
        rawWeight := some s
        scrapedFromHtml := some s
        error :=
          if truthyQ (parseWeightToLbs2 (some s)) then none
          else some "Weight not found (API + HTML scrape)" } := by
  have hss : truthyS (some s) = true := by simp [truthyS, hs]
  unfold handlerCore2
  simp [h, hu, hss, jsOrS_none_of_truthy _ hss, truthyS_jsOrS_none, truthyS_none,
    jsOrS_none_left]

/-- Without a truthy product URL the scrape input is never consulted. -/
theorem handlerCore2_noUrl (p : Product) (htmlResult : Option String)
    (hu : truthyS p.ProductDetailUrl = false) :
    handlerCore2 p htmlResult = handlerCore2 p none := by
  unfold handlerCore2
  simp [hu, truthyS_jsOrS_none, truthyS_none, jsOrS_none_left]

/-- Evaluation lemmas for the unit conversion chain at the concrete
tokens the proofs use. -/
theorem unitToLbs_mg (v : ℚ) : unitToLbs "mg" v = some (v / 1000 / (45359237 / 100000)) := by
  unfold unitToLbs
  rw [if_pos rfl]

theorem unitToLbs_g (v : ℚ) : unitToLbs "g" v = some (v / (45359237 / 100000)) := by
  unfold unitToLbs
  rw [if_neg (by decide : ¬("g" : String) = "mg"), if_pos rfl]

/-! ### Claim theorems -/

/-- C1: for every input whose first left-to-right regex match (taken,
as the first copy of `parseWeightToLbs` does, on the comma-stripped and
trimmed input) captures numeric text and a recognized unit token, the
returned pound value is the claim's conversion table applied to the
parsed magnitude; when no number-and-unit match exists, or the matched
numeric text parses to no finite magnitude, the result is null; and
"5.500 mg" yields approximately 1.213e-5 pounds. -/
theorem claim_C1_unit_normalizer :
    (∀ s numS unitS p,
        numUnitSearch (jsTrim (stripCommas s)) = some (numS, unitS) →
        parseFloatParts numS = some p →
        parseWeightToLbs1 (some s) = specPoundValue (ratOfParts p) (asciiLowerStr unitS)) ∧
    (∀ s, numUnitSearch (jsTrim (stripCommas s)) = none →
        parseWeightToLbs1 (some s) = none) ∧
    (∀ s numS unitS,
        numUnitSearch (jsTrim (stripCommas s)) = some (numS, unitS) →
        parseFloatParts numS = none →
        parseWeightToLbs1 (some s) = none) ∧
    (∃ q, parseWeightToLbs1 (some "5.500 mg") = some q ∧ |q * 10 ^ 8 - 1213| < 1) := by
  refine ⟨?_, ?_, ?_, ?_⟩
  · intro s numS unitS p hm hp
    by_cases hs : s = ""
    · subst hs
      have hnone : numUnitSearch (jsTrim (stripCommas "")) = none := by decide
      rw [hnone] at hm
      exact Option.noConfusion hm
    · obtain ⟨i, f, l⟩ := p
      simp only [parseWeightToLbs1, if_neg hs, parseCoreParsed, hm, hp, Option.some_bind]
      rfl
  · intro s hm
    by_cases hs : s = ""
    · subst hs; rfl
    · simp only [parseWeightToLbs1, if_neg hs, parseCoreParsed, hm]
      rfl
  · intro s numS unitS hm hp
    by_cases hs : s = ""
    · subst hs; rfl
    · simp only [parseWeightToLbs1, if_neg hs, parseCoreParsed, hm, hp]
      rfl
  · refine ⟨550 / 45359237, ?_, by rw [abs_sub_lt_iff]; constructor <;> norm_num⟩
    have h : parseCoreParsed (jsTrim (stripCommas "5.500 mg")) = some (5, 500, 3, "mg") := by
      decide
    simp only [parseWeightToLbs1, if_neg (by decide : ¬("5.500 mg" : String) = ""), h]
    show unitToLbs "mg" (ratOfParts (5, 500, 3)) = some (550 / 45359237)
    rw [unitToLbs_mg]
    norm_num [ratOfParts]

/-- Witness for C1 at the concrete input "5.500 mg". -/
theorem claim_C1_witness :
    parseWeightToLbs1 (some "5.500 mg") =
      specPoundValue (ratOfParts (5, 500, 3)) (asciiLowerStr "mg") :=
  claim_C1_unit_normalizer.1 "5.500 mg" "5.500" "mg" (5, 500, 3) (by decide) (by decide)

/-- C2: the vendor-record extractor searches the direct fields
UnitWeight, Weight, NetWeight, PackageWeight (first non-blank string
wins), then the shape-normalized attribute list against the ordered
patterns unit weight, net weight, package weight, word-bounded weight,
word-bounded mass, first match by pattern priority; no match in either
source is unresolved — i.e. it equals the claim's priority-ordered
description `specExtractC2`. -/
theorem claim_C2_extractor_priority (p : Product) : extractRawWeight p = specExtractC2 p := by
  unfold extractRawWeight specExtractC2
  rw [firstDirect_eq_findSome, firstPattern_eq_findSome]
  cases (directCandidates p).findSome?
      (fun fv => fv.2.bind fun s => if jsTrim s ≠ "" then some (jsTrim s, fv.1) else none) with
  | none => simp
  | some r => simp

/-- C10 counterexample: on "1,000 g" the first copy strips the comma
and parses 1000 g (about 2.2 lb), while the second copy's regex falls
on the "000 g" suffix and returns 0 — the two copies are not
extensionally equal on `weightLbs`. -/
theorem claim_C10_counterexample :
    parseWeightToLbs1 (some "1,000 g") = some (100000000 / 45359237) ∧
    parseWeightToLbs2 (some "1,000 g") = some 0 ∧
    (100000000 / 45359237 : ℚ) ≠ 0 := by
  refine ⟨?_, ?_, by norm_num⟩
  · have h : parseCoreParsed (jsTrim (stripCommas "1,000 g")) = some (1000, 0, 0, "g") := by
      decide
    simp only [parseWeightToLbs1, if_neg (by decide : ¬("1,000 g" : String) = ""), h]
    show unitToLbs "g" (ratOfParts (1000, 0, 0)) = some (100000000 / 45359237)
    rw [unitToLbs_g]
    norm_num [ratOfParts]
  · have h : parseCoreParsed (jsTrim "1,000 g") = some (0, 0, 0, "g") := by decide
    simp only [parseWeightToLbs2, if_neg (by decide : ¬("1,000 g" : String) = ""), h]
    show (unitToLbs "g" (ratOfParts (0, 0, 0))).map round10 = some 0
    rw [unitToLbs_g]
    norm_num [ratOfParts, round10]

/-- C10 amended: on comma-free inputs the two copies agree up to the
second copy's rounding to 10 decimal places (in particular they agree on
nullness there); comma-containing inputs can differ, as the
counterexample shows, because only the first copy strips commas. -/
theorem claim_C10_copies_agree (s : String) (h : ',' ∉ s.data) :
    parseWeightToLbs2 (some s) = (parseWeightToLbs1 (some s)).map round10 := by
  have hs : stripCommas s = s := by
    obtain ⟨l⟩ := s
    have hf : l.filter (fun c => c ≠ ',') = l :=
      List.filter_eq_self.mpr (fun a ha => by
        have : a ≠ ',' := fun hc => h (hc ▸ ha)
        simpa using this)
    show String.mk (l.filter (fun c => c ≠ ',')) = String.mk l
    rw [hf]
  by_cases h0 : s = ""
  · subst h0; rfl
  · simp only [parseWeightToLbs1, parseWeightToLbs2, hs, if_neg h0]

/-- Witness for C10's amended statement at the comma-free input
"0.5 lb". -/
theorem claim_C10_witness :
    parseWeightToLbs2 (some "0.5 lb") = (parseWeightToLbs1 (some "0.5 lb")).map round10 :=
  claim_C10_copies_agree "0.5 lb" (by decide)

/-- C3 counterexample: with vendor-record extraction empty, a product
URL present, the scrape yielding nothing, and the record text containing
"0603", the claim's final package-inference fallback would resolve a
weight (the spec-modelled pipeline tail does), but the handler resolves
nothing — no package-inference stage exists in the src pipeline. -/
theorem claim_C3_counterexample :
    (handlerCore2 exProductC3 none).weight = none ∧
    specResolveUnitWeight exampleGramTable "CRCW0603TEST" exProductC3 none =
      some (exampleGramTable "0603" / (45359237 / 100000), Stage.packageInference) := by
  constructor
  · decide
  · rfl

/-- C3 amended: the scrape input is consulted only when the API probe
found nothing truthy and the record has a truthy product URL; a truthy
structured value determines the response regardless of any scrape
result; a truthy scraped value is adopted when the probe failed; and
when both the probe and the scrape yield nothing the result is
unresolved (the src pipeline ends there — no package inference). -/
theorem claim_C3_stage_order (p : Product) :
    (truthyS (rawWeightFromApi p) = true →
      (∀ h1 h2 : Option String, handlerCore2 p h1 = handlerCore2 p h2) ∧
      ∀ h1, (handlerCore2 p h1).rawWeight = rawWeightFromApi p) ∧
    (truthyS (rawWeightFromApi p) = false → truthyS p.ProductDetailUrl = true →
      ∀ s : String, s ≠ "" →
        (handlerCore2 p (some s)).rawWeight = some s ∧
        (handlerCore2 p (some s)).scrapedFromHtml = some s ∧
        (handlerCore2 p (some s)).weight = parseWeightToLbs2 (some s)) ∧
    (truthyS p.ProductDetailUrl = false →
      ∀ h1, handlerCore2 p h1 = handlerCore2 p none) ∧
    (truthyS (rawWeightFromApi p) = false → ∀ h1, truthyS h1 = false →
      (handlerCore2 p h1).weight = none) := by
  refine ⟨fun h => ⟨fun h1 h2 => ?_, fun h1 => ?_⟩, fun h hu s hs => ?_,
    fun hu h1 => handlerCore2_noUrl p h1 hu, fun h h1 hh => ?_⟩
  · rw [handlerCore2_apiRaw p h1 h, handlerCore2_apiRaw p h2 h]
  · rw [handlerCore2_apiRaw p h1 h]
  · rw [handlerCore2_scraped p s h hu hs]
    exact ⟨rfl, rfl, rfl⟩
  · rw [handlerCore2_unresolved p h1 h hh]

/-- Witness for C3's amended statement: with a structured weight
present, the scrape input is irrelevant and the structured value is the
raw weight used. -/
theorem claim_C3_witness :
    handlerCore2 exProductC3W (some "9 g") = handlerCore2 exProductC3W none ∧
    (handlerCore2 exProductC3W (some "9 g")).rawWeight = rawWeightFromApi exProductC3W :=
  ⟨((claim_C3_stage_order exProductC3W).1 (by decide)).1 (some "9 g") none,
   ((claim_C3_stage_order exProductC3W).1 (by decide)).2 (some "9 g")⟩

/-- C4: once a unit weight is resolved, the total is exactly unit
weight times the requested quantity (a positive integer, defaulting to 1
when the parameter is absent); an unresolved unit weight propagates to
an unresolved total, never a partial or zero total. -/
theorem claim_C4_quantity_scaling (qtyParam : Option ℕ) (hq : 0 < qtyParam.getD 1) :
    (∀ w : ℚ, specTotalWeight (some w) qtyParam = some (w * (qtyParam.getD 1 : ℕ))) ∧
    (∀ w : ℚ, specTotalWeight (some w) none = some w) ∧
    specTotalWeight none qtyParam = none ∧
    ∀ q : ℚ, specTotalWeight none qtyParam ≠ some q := by
  refine ⟨fun w => rfl, fun w => by simp [specTotalWeight], rfl,
    fun q hcontra => by simp [specTotalWeight] at hcontra⟩

/-- Witness for C4 at quantity 3 and unit weight 11/2. -/
theorem claim_C4_witness :
    specTotalWeight (some (11 / 2)) (some 3) = some ((11 / 2) * ((3 : ℕ) : ℚ)) ∧
    specTotalWeight none (some 3) = none :=
  ⟨(claim_C4_quantity_scaling (some 3) (by decide)).1 (11 / 2),
   (claim_C4_quantity_scaling (some 3) (by decide)).2.2.1⟩

/-- C5: in the spec-modelled pipeline tail, when a record is selected
but extraction yields nothing and no product URL is available, a
recognized package code in the concatenated record text resolves to that
code's table value in grams converted to pounds, with package-inference
provenance; no matching code leaves the result unresolved. -/
theorem claim_C5_package_inference (table : String → ℚ) (ident : String) (p : Product)
    (scrapeRes : Option String) (hex : extractRawWeight p = none)
    (hurl : truthyS p.ProductDetailUrl = false) :
    (∀ c g, specPackageInference table (specConcatText ident p) = some (c, g) →
      specResolveUnitWeight table ident p scrapeRes =
        some (g / (45359237 / 100000), Stage.packageInference)) ∧
    (specPackageInference table (specConcatText ident p) = none →
      specResolveUnitWeight table ident p scrapeRes = none) := by
  constructor
  · intro c g hcg
    simp only [specResolveUnitWeight, hex, hurl, hcg]
    rfl
  · intro h0
    simp only [specResolveUnitWeight, hex, hurl, h0]
    rfl

/-- Witness for C5 at a concrete record whose description contains
"0603". -/
theorem claim_C5_witness :
    specResolveUnitWeight exampleGramTable "X1" exProductC5 none =
      some (exampleGramTable "0603" / (45359237 / 100000), Stage.packageInference) :=
  (claim_C5_package_inference exampleGramTable "X1" exProductC5 none (by decide)
    (by decide)).1 "0603" (exampleGramTable "0603") rfl

/-- C6 counterexample: the `get-part-weight.js` handlers select the
first record even when a later record matches the query identifier
case-insensitively, contradicting the claim's exact-match preference. -/
theorem claim_C6_counterexample :
    selectMain [exRecA, exRecB] = some exRecA ∧
    mpnMatches "bbb-2" exRecB = true ∧
    mpnMatches "bbb-2" exRecA = false ∧
    exRecA ≠ exRecB := by decide

/-- C6 amended: only the `part_000` snapshot prefers an exact
case-insensitive manufacturer-part-number match (falling back to the
first record); the two `get-part-weight.js` handlers always select the
first record. -/
theorem claim_C6_selection :
    (∀ partRaw parts, (∃ p ∈ parts, mpnMatches partRaw p) →
      ∃ r, select000 partRaw parts = some r ∧ mpnMatches partRaw r) ∧
    (∀ partRaw parts, (∀ p ∈ parts, ¬ mpnMatches partRaw p) →
      select000 partRaw parts = parts.head?) ∧
    (∀ parts : List Product, selectMain parts = parts.head?) := by
  refine ⟨?_, ?_, fun _ => rfl⟩
  · rintro pr parts ⟨p, hp, hm⟩
    unfold select000
    cases hf : parts.find? (mpnMatches pr) with
    | some r => exact ⟨r, rfl, List.find?_some hf⟩
    | none =>
      exact absurd hm (by simpa using List.find?_eq_none.mp hf p hp)
  · intro pr parts hnone
    unfold select000
    rw [List.find?_eq_none.mpr (fun p hp => by simpa using hnone p hp)]

/-- Witness for C6's amended statement: the part_000 selection finds the
case-insensitive match. -/
theorem claim_C6_witness :
    ∃ r, select000 "bbb-2" [exRecA, exRecB] = some r ∧ mpnMatches "bbb-2" r :=
  claim_C6_selection.1 "bbb-2" [exRecA, exRecB] ⟨exRecB, by decide, by decide⟩

/-- C7 counterexample: a page whose only weight row is labelled
"Net Weight" matches the tabular pattern claim C7(b) describes, yet the
scraper returns nothing — `scrapeUnitWeightFromMouserPage` has no
Net-Weight pattern at all. -/
theorem claim_C7_counterexample :
    claimNetTabularCap (compactWs netWeightHtml) = some "5 g" ∧
    scrapeCore netWeightHtml = none := by decide

/-- C7 amended: the scraper tries, in order, the tabular Unit-Weight
pattern (two structural variants), the plain-text "Unit Weight:"
pattern, and the embedded quoted-key pattern (three variants, accepted
only when the capture contains a unit token); the first truthy capture
short-circuits the rest and is returned with commas stripped and
whitespace trimmed; there is no Net-Weight pattern. -/
theorem claim_C7_scraper_order (html : String) (hne : html ≠ "") :
    (∀ c, capHit (tabularCap (compactWs html)) = some c →
      scrapeCore html = some (cleanWeight c)) ∧
    (capHit (tabularCap (compactWs html)) = none →
      ∀ c, capHit (plainCap (compactWs html)) = some c →
        scrapeCore html = some (cleanWeight c)) ∧
    (capHit (tabularCap (compactWs html)) = none →
      capHit (plainCap (compactWs html)) = none →
      ∀ c, capHit (jsonCap (compactWs html)) = some c →
        scrapeCore html = if unitGate c then some (cleanWeight c) else none) ∧
    (capHit (tabularCap (compactWs html)) = none →
      capHit (plainCap (compactWs html)) = none →
      capHit (jsonCap (compactWs html)) = none →
      scrapeCore html = none) := by
  refine ⟨fun c hA => ?_, fun hA c hB => ?_, fun hA hB c hC => ?_, fun hA hB hC => ?_⟩
  · simp only [scrapeCore, if_neg hne, hA]
  · simp only [scrapeCore, if_neg hne, hA, hB]
  · simp only [scrapeCore, if_neg hne, hA, hB, hC]
  · simp only [scrapeCore, if_neg hne, hA, hB, hC]

/-- Witness for C7's amended statement at a concrete tabular page. -/
theorem claim_C7_witness :
    scrapeCore "<td>Unit Weight:</td><td>5.500 mg</td>" =
      some (cleanWeight "5.500 mg") :=
  (claim_C7_scraper_order "<td>Unit Weight:</td><td>5.500 mg</td>" (by decide)).1
    "5.500 mg" (by decide)

/-- C8 counterexample: with the part parameter missing (empty) and the
API key absent, the handler returns the missing-part response, not the
configuration-error response — the part check runs first in all three
snapshots. -/
theorem claim_C8_counterexample :
    handlerPre (some "") none = PreOutcome.missingPart ∧
    PreOutcome.missingPart ≠ PreOutcome.configError := by decide

/-- C8 amended: when the API key is absent (or empty) and the part
identifier is present and non-blank, the handler returns the
configuration-error response before any resolution or network call; but
a missing/blank part identifier takes precedence and yields the
missing-part response regardless of the key. -/
theorem claim_C8_config_error :
    (∀ partParam apiKey : Option String,
      jsTrim ((jsOrS partParam (some "")).getD "") ≠ "" → truthyS apiKey = false →
      handlerPre partParam apiKey = PreOutcome.configError) ∧
    (∀ partParam apiKey : Option String,
      jsTrim ((jsOrS partParam (some "")).getD "") = "" →
      handlerPre partParam apiKey = PreOutcome.missingPart) := by
  constructor
  · intro pp key hp hk
    unfold handlerPre
    simp [hp, hk]
  · intro pp key hp
    unfold handlerPre
    simp [hp]

/-- Witness for C8's amended statement: valid part, absent key. -/
theorem claim_C8_witness :
    handlerPre (some "ABC-123") none = PreOutcome.configError :=
  claim_C8_config_error.1 (some "ABC-123") none (by decide) (by decide)

/-- C9: in the first handler `error` is null exactly when the parsed
weight is non-null (`weightLbs == null`), so a weight of 0 carries a
null error there; but the second handler tests the number's truthiness,
so a weight that parses to exactly 0 is reported with a non-null error
and a "No Weight" source — the code contradicts the resolved-weight
semantics its own first snapshot and `rawWeight` field express. -/
theorem claim_C9_zero_weight_error :
    (∀ p : Product, ((handlerCore1 p).error = none ↔ (handlerCore1 p).weight ≠ none)) ∧
    (handlerCore2 exProductC9 none).weight = some 0 ∧
    (handlerCore2 exProductC9 none).error = some "Weight not found (API only)" ∧
    (handlerCore2 exProductC9 none).source = "Mouser (No Weight)" := by
  have hraw : rawWeightFromApi exProductC9 = some "0 g" := by decide
  have htr : truthyS (rawWeightFromApi exProductC9) = true := by rw [hraw]; decide
  have hparse : parseWeightToLbs2 (some "0 g") = some 0 := by
    have h : parseCoreParsed (jsTrim "0 g") = some (0, 0, 0, "g") := by decide
    simp only [parseWeightToLbs2, if_neg (by decide : ¬("0 g" : String) = ""), h]
    show (unitToLbs "g" (ratOfParts (0, 0, 0))).map round10 = some 0
    rw [unitToLbs_g]
    norm_num [ratOfParts, round10]
  have h2 := handlerCore2_apiRaw exProductC9 none htr
  rw [hraw] at h2
  have hq : truthyQ (parseWeightToLbs2 (some "0 g")) = false := by
    rw [hparse]
    simp [truthyQ]
  refine ⟨fun p => ?_, ?_, ?_, ?_⟩
  · unfold handlerCore1
    by_cases h : parseWeightToLbs1 ((extractRawWeight p).map Prod.fst) = none <;> simp [h]
  · rw [h2]
    exact hparse
  · rw [h2]
    show (if truthyQ (parseWeightToLbs2 (some "0 g")) = true then none
          else some (if truthyS exProductC9.ProductDetailUrl = true
                     then "Weight not found (API + HTML scrape)"
                     else "Weight not found (API only)")) =
      some "Weight not found (API only)"
    rw [hq]
    decide
  · rw [h2]
    show (if truthyQ (parseWeightToLbs2 (some "0 g")) = true then
            if truthyS (rawWeightFromApi exProductC9) = true then "Mouser API"
            else "Mouser HTML"
          else "Mouser (No Weight)") = "Mouser (No Weight)"
    rw [hq]
    decide
